import Mathlib

/-!
Verification of the durable retry-queue subsystem of the Blinko browser
extension.  The definitions below are shallow embeddings of the JavaScript
source:

* `src/src/utils/offline-queue.js` — queue manager (enqueue / dequeue /
  updateItem / cleanup helpers) and the pure retry policy
  (`calculateRetryDelay`, `shouldRetry`);
* `src/src/background.js` — the retry orchestrator `retryQueueItem` and the
  lifecycle driver `processQueueOnStartup`;
* `src/src/utils/s3-uploader.js` — the `createNote` caller that decides
  whether a failed delivery is enqueued.

Timestamps are modelled as natural numbers of milliseconds; JavaScript
subtractions that may go negative are computed in `Int`.  The stores
(IndexedDB and the chrome.storage fallback) are both modelled as a
`List QueueItem`, which matches the observable contract of both backends
(ordered collection of records keyed by `id`).
-/

namespace BlinkoQueue

/-- The `delays` table of `calculateRetryDelay` in
`src/src/utils/offline-queue.js` (lines 490-500), including the
`delays[strategy] || delays.standard` fallback: for the three own keys the
own list, and for any other strategy name that is not an inherited
`Object.prototype` property the lookup yields `undefined` (falsy) and the
fallback applies.  A strategy name that IS an `Object.prototype` property
(e.g. "toString") returns a truthy inherited member instead and skips the
fallback; that case is outside this function's domain and is modelled by
`calculateRetryDelayJs` below.  The JavaScript default parameter
`strategy = 'standard'` corresponds to calling this with `"standard"`. -/
def delaysFor (strategy : String) : List Nat :=
  if strategy = "conservative" then [1000, 2000, 4000]
  else if strategy = "standard" then [1000, 2000, 4000, 8000, 16000, 32000]
  else if strategy = "aggressive" then
    [1000, 1000, 2000, 2000, 4000, 8000, 16000, 32000, 60000, 120000]
  else [1000, 2000, 4000, 8000, 16000, 32000]

/-- `calculateRetryDelay(retryCount, strategy)` from
`src/src/utils/offline-queue.js`, for strategy names that are not inherited
`Object.prototype` properties (see `calculateRetryDelayJs` for the general
case): `index = Math.min(retryCount, delayList.length - 1); return
delayList[index]`.  The index is always in range (every delay list is
non-empty), so the `getD` default is never reached. -/
def calculateRetryDelay (retryCount : Nat) (strategy : String) : Nat :=
  let delayList := delaysFor strategy
  let index := min retryCount (delayList.length - 1)
  delayList.getD index 0

/-- The `maxRetries` table of `shouldRetry` in
`src/src/utils/offline-queue.js` (lines 508-516), including the
`maxRetries[strategy] || 6` fallback, again for strategy names that are not
inherited `Object.prototype` properties (for those the inherited member is
truthy and the fallback is skipped; see `shouldRetryJs`). -/
def maxRetriesFor (strategy : String) : Nat :=
  if strategy = "conservative" then 3
  else if strategy = "standard" then 6
  else if strategy = "aggressive" then 10
  else 6

/-- `shouldRetry(retryCount, strategy)` from
`src/src/utils/offline-queue.js`: `retryCount < (maxRetries[strategy] || 6)`,
for strategy names that are not inherited `Object.prototype` properties
(see `shouldRetryJs` for the general case). -/
def shouldRetry (retryCount : Nat) (strategy : String) : Bool :=
  retryCount < maxRetriesFor strategy

/-- The property names a plain JavaScript object literal inherits from
`Object.prototype`.  A property read `obj[key]` on the `delays` or
`maxRetries` literal with one of these keys returns the inherited member —
a function, or `Object.prototype` itself for the `__proto__` accessor —
which is truthy, so an `obj[key] || fallback` expression does NOT take the
fallback for these keys. -/
def objectPrototypeKeys : List String :=
  ["constructor", "hasOwnProperty", "isPrototypeOf", "propertyIsEnumerable",
   "toLocaleString", "toString", "valueOf", "__defineGetter__",
   "__defineSetter__", "__lookupGetter__", "__lookupSetter__", "__proto__"]

/-- `calculateRetryDelay(retryCount, strategy)` over ALL strategy strings.
For a key inherited from `Object.prototype`, `delays[strategy]` is a truthy
inherited member, the `|| delays.standard` fallback is skipped,
`delayList.length` is the member's arity (or `undefined` for `__proto__`),
and reading the member at index `Math.min(retryCount, length - 1)` yields
`undefined` — modelled as `none`.  Every other strategy string yields the
number computed by `calculateRetryDelay`. -/
def calculateRetryDelayJs (retryCount : Nat) (strategy : String) : Option Nat :=
  if strategy ∈ objectPrototypeKeys then none
  else some (calculateRetryDelay retryCount strategy)

/-- `shouldRetry(retryCount, strategy)` over ALL strategy strings.  For a
key inherited from `Object.prototype`, `maxRetries[strategy]` is a truthy
inherited member, the `|| 6` fallback is skipped, and `retryCount < member`
coerces the member to `NaN`, so the comparison is false for every
retryCount.  Every other strategy string behaves as `shouldRetry`. -/
def shouldRetryJs (retryCount : Nat) (strategy : String) : Bool :=
  if strategy ∈ objectPrototypeKeys then false
  else shouldRetry retryCount strategy

/-- A queue record as built by `enqueue` in `src/src/utils/offline-queue.js`
(lines 93-104): `{content, type, tags, url, title, status, createdAt,
updatedAt, retryCount, lastError, metadata}` plus the store-assigned `id`.
`status` is one of the strings "pending", "retrying", "success", "failed";
`metadata` is an opaque caller-supplied mapping, never interpreted by the
queue. -/
structure QueueItem where
  id : Nat
  content : String
  type : Nat
  tags : String
  url : String
  title : String
  status : String
  createdAt : Nat
  updatedAt : Nat
  retryCount : Nat
  lastError : String
  metadata : List (String × String)
deriving Repr, DecidableEq

/-- The caller-supplied argument of `enqueue`:
`{content, type, tags, url, title, metadata}`.  The `|| 0` / `|| ''` /
`|| {}` defaults in the source only fill absent (undefined) fields; here
every field is present. -/
structure EnqueueRequest where
  content : String
  type : Nat
  tags : String
  url : String
  title : String
  metadata : List (String × String)
deriving Repr, DecidableEq

/-- The result object of `enqueue`:
`{success: boolean, id?: number, message?: string}`. -/
structure EnqueueResult where
  success : Bool
  id : Option Nat
  message : Option String
deriving Repr, DecidableEq

/-- `checkDuplicate(content)` from `src/src/utils/offline-queue.js` (lines
417-426): some item of the queue has the same content and
`now - item.createdAt < 5 * 60 * 1000`.  The subtraction is done in `Int`
as in JavaScript (it may be negative for future timestamps). -/
def checkDuplicate (queue : List QueueItem) (content : String) (now : Nat) : Bool :=
  queue.any fun item =>
    item.content = content && ((now : Int) - (item.createdAt : Int) < 300000)

/-- The fresh record built by `enqueue` before it is handed to a store:
status "pending", both timestamps `now`, retryCount 0, empty lastError.
The `id` field is a placeholder 0 until the store assigns one. -/
def mkQueueItem (req : EnqueueRequest) (now : Nat) : QueueItem :=
  { id := 0
    content := req.content
    type := req.type
    tags := req.tags
    url := req.url
    title := req.title
    status := "pending"
    createdAt := now
    updatedAt := now
    retryCount := 0
    lastError := ""
    metadata := req.metadata }

/-- The queue-full rejection message of the primary path of `enqueue`:
the template string interpolating `maxSize`. -/
def queueFullMessage (maxSize : Nat) : String :=
  "队列已满（" ++ toString maxSize ++ "条），请清理后重试"

/-- `enqueueFallback(item)` from `src/src/utils/offline-queue.js` (lines
141-161): rejects when the fallback list already holds 50 items, otherwise
assigns a client-side id and pushes the item at the end of the list.  The
source id is `Date.now() + Math.random()`; it is modelled as the opaque
`fallbackId` argument. -/
def enqueueFallback (queue : List QueueItem) (item : QueueItem)
    (fallbackId : Nat) : EnqueueResult × List QueueItem :=
  if queue.length ≥ 50 then
    ({ success := false, id := none, message := some "队列已满（降级模式限制50条）" },
      queue)
  else
    let item := { item with id := fallbackId }
    ({ success := true, id := some fallbackId, message := none },
      queue ++ [item])

/-- `enqueue(item)` from `src/src/utils/offline-queue.js` (lines 71-136):
1. reject if `getQueueSize() >= maxSize` (queue-full message);
2. reject if `checkDuplicate(item.content)` (duplicate message);
3. build the fresh record and hand it to the active store — the fallback
   list when `useFallback` (or when IndexedDB is unavailable), otherwise
   `store.add`, which appends the record under a store-assigned
   auto-increment id (modelled as the `newId` argument). -/
def enqueue (useFallback : Bool) (queue : List QueueItem) (maxSize : Nat)
    (req : EnqueueRequest) (now : Nat) (newId : Nat) :
    EnqueueResult × List QueueItem :=
  if queue.length ≥ maxSize then
    ({ success := false, id := none, message := some (queueFullMessage maxSize) },
      queue)
  else if checkDuplicate queue req.content now then
    ({ success := false, id := none, message := some "该笔记已在队列中" }, queue)
  else
    let item := mkQueueItem req now
    if useFallback then enqueueFallback queue item newId
    else
      ({ success := true, id := some newId, message := none },
        queue ++ [{ item with id := newId }])

/-- One call of a sequence of `enqueue` invocations: its request, its wall
clock and the id the active store would assign. -/
structure EnqueueOp where
  req : EnqueueRequest
  now : Nat
  newId : Nat
deriving Repr

/-- The queue state after one `enqueue` call of a sequence. -/
def enqueueStep (useFallback : Bool) (maxSize : Nat) (queue : List QueueItem)
    (op : EnqueueOp) : List QueueItem :=
  (enqueue useFallback queue maxSize op.req op.now op.newId).2

/-- The queue state after a whole sequence of `enqueue` calls starting
from the empty store. -/
def runEnqueues (useFallback : Bool) (maxSize : Nat) (ops : List EnqueueOp) :
    List QueueItem :=
  ops.foldl (enqueueStep useFallback maxSize) []

/-- `dequeue(id)` from `src/src/utils/offline-queue.js` (lines 168-199) on
the primary store: `store.delete(id)` removes the record with that key if
present; the IndexedDB delete request fires `onsuccess` whether or not the
key existed, so the function resolves `true` in both cases (`false` only on
a storage-layer error, outside this model). -/
def dequeue (queue : List QueueItem) (id : Nat) : Bool × List QueueItem :=
  (true, queue.filter fun item => item.id ≠ id)

/-- `dequeueFallback(id)` from `src/src/utils/offline-queue.js` (lines
201-212): filters the stored list by `item.id !== id`, persists it, and
returns `true` unconditionally (again `false` only on a storage error). -/
def dequeueFallback (queue : List QueueItem) (id : Nat) : Bool × List QueueItem :=
  (true, queue.filter fun item => item.id ≠ id)

/-- The result object of the black-box delivery collaborator
(`retryQueuedNote` in `src/src/utils/s3-uploader.js`):
`{success: boolean, message: string}`. -/
structure DeliveryResult where
  success : Bool
  message : String
deriving Repr, DecidableEq

/-- An `updates` patch as passed to `updateItem`.  The orchestrator only
ever patches `status`, `retryCount` and `lastError`; a `none` field is
absent from the JavaScript patch object and left unchanged by
`Object.assign`. -/
structure ItemPatch where
  status : Option String
  retryCount : Option Nat
  lastError : Option String
deriving Repr, DecidableEq

/-- `Object.assign(item, updates, { updatedAt: Date.now() })` from
`updateItem` in `src/src/utils/offline-queue.js`: patch fields override the
record, and `updatedAt` is refreshed last. -/
def applyPatch (item : QueueItem) (patch : ItemPatch) (now : Nat) : QueueItem :=
  { item with
    status := patch.status.getD item.status
    retryCount := patch.retryCount.getD item.retryCount
    lastError := patch.lastError.getD item.lastError
    updatedAt := now }

/-- `updateItem(id, updates)` from `src/src/utils/offline-queue.js` (lines
277-350, both backends): look up the record with that id; if absent resolve
`false` without writing; otherwise merge the patch, refresh `updatedAt`,
persist, and resolve `true`. -/
def updateItem (queue : List QueueItem) (id : Nat) (patch : ItemPatch)
    (now : Nat) : Bool × List QueueItem :=
  if queue.any fun item => item.id = id then
    (true,
      queue.map fun item =>
        if item.id = id then applyPatch item patch now else item)
  else
    (false, queue)

/-- `retryQueueItem(item)` from `src/src/background.js` (lines 738-791).
Inputs: the stored queue, the `item` argument (a snapshot, possibly stale),
the configured strategy, and the outcome the delivery collaborator would
report.  Output: the stored queue after the call, and `some (delay, next)`
when the failure branch runs `setTimeout(() => retryQueueItem(item), delay)`
— note that the scheduled call closes over the SAME `item` snapshot the
current call received (the source never reassigns `item.retryCount`), which
is why the second component carries `item` unchanged.  The max-retries
branch and the success branch schedule nothing (`none`).  The try/catch
error path (failure of a store operation itself) is outside this model. -/
def retryQueueItem (queue : List QueueItem) (item : QueueItem)
    (strategy : String) (result : DeliveryResult) (now : Nat) :
    List QueueItem × Option (Nat × QueueItem) :=
  if !shouldRetry item.retryCount strategy then
    ((updateItem queue item.id
        { status := some "failed", retryCount := none,
          lastError := some "达到最大重试次数" } now).2, none)
  else
    let queue1 := (updateItem queue item.id
        { status := some "retrying", retryCount := none, lastError := none }
        now).2
    if result.success then
      ((updateItem queue1 item.id
          { status := some "success", retryCount := none, lastError := some "" }
          now).2, none)
    else
      let newRetryCount := item.retryCount + 1
      let queue2 := (updateItem queue1 item.id
          { status := some "pending", retryCount := some newRetryCount,
            lastError := some result.message } now).2
      let delay := calculateRetryDelay newRetryCount strategy
      (queue2, some (delay, item))

/-- The filter of `processQueueOnStartup` in `src/src/background.js`
(lines 715-732): the items a recovery pass hands to `retryQueueItem` are
exactly those with status "pending" or "retrying". -/
def recoveryItems (queue : List QueueItem) : List QueueItem :=
  queue.filter fun item =>
    item.status = "pending" || item.status = "retrying"

/-- One recovery pass of `processQueueOnStartup` over a queue holding at
most one non-terminal item: the pass re-reads the queue, filters it, and
invokes `retryQueueItem` on the freshly read record (unlike the
`setTimeout` chain, which reuses a stale snapshot). -/
def recoveryPassSingle (strategy : String) (result : DeliveryResult)
    (now : Nat) (queue : List QueueItem) : List QueueItem :=
  match recoveryItems queue with
  | [] => queue
  | item :: _ => (retryQueueItem queue item strategy result now).1

/-- The outcome of the delivery attempt inside `createNote` in
`src/src/utils/s3-uploader.js` (lines 492-552): the HTTP call succeeded,
failed with 401/403, failed with a 5xx status, failed with another non-ok
status, or threw (network error). -/
inductive DeliveryOutcome where
  | ok
  | authError
  | serverError
  | otherHttpError
  | networkError
deriving Repr, DecidableEq

/-- How `createNote` classified the request. -/
inductive CreateNoteOutcome where
  | rejectedNoConfig
  | rejectedEmptyContent
  | authFailed
  | delivered
  | failedRetryable
  | failedOther
deriving Repr, DecidableEq

/-- The control flow of `createNote` in `src/src/utils/s3-uploader.js`
(lines 492-552), abstracted over the network: `!apiUrl || !token` rejects
first; then `!content || content.trim() === ''` rejects empty content; only
past both guards is the request sent, and only the 5xx branch and the
catch (network-error) branch call `tryEnqueueNote`.  The second component
records whether `tryEnqueueNote` is invoked — that is, whether the request
can reach `enqueue` at all. -/
def createNoteGate (apiUrl token content : String)
    (outcome : DeliveryOutcome) : CreateNoteOutcome × Bool :=
  if apiUrl = "" ∨ token = "" then (CreateNoteOutcome.rejectedNoConfig, false)
  else if content = "" ∨ content.trim = "" then
    (CreateNoteOutcome.rejectedEmptyContent, false)
  else
    match outcome with
    | DeliveryOutcome.ok => (CreateNoteOutcome.delivered, false)
    | DeliveryOutcome.authError => (CreateNoteOutcome.authFailed, false)
    | DeliveryOutcome.serverError => (CreateNoteOutcome.failedRetryable, true)
    | DeliveryOutcome.otherHttpError => (CreateNoteOutcome.failedOther, false)
    | DeliveryOutcome.networkError => (CreateNoteOutcome.failedRetryable, true)

/-- A concrete queue record used in the concrete evaluations below. -/
def sampleItem (id : Nat) (status : String) (retryCount : Nat) : QueueItem :=
  { id := id
    content := "x"
    type := 0
    tags := ""
    url := ""
    title := ""
    status := status
    createdAt := 0
    updatedAt := 0
    retryCount := retryCount
    lastError := ""
    metadata := [] }

/-- A concrete failing delivery outcome. -/
def failDelivery : DeliveryResult :=
  { success := false, message := "HTTP 500" }

/-- A concrete enqueue request with empty content. -/
def emptyContentReq : EnqueueRequest :=
  { content := "", type := 0, tags := "", url := "", title := "", metadata := [] }

/-- A concrete enqueue request whose content matches `sampleItem`. -/
def dupReq : EnqueueRequest :=
  { content := "x", type := 0, tags := "", url := "", title := "", metadata := [] }

end BlinkoQueue

namespace BlinkoQueue

/-- Claim C4: for every non-negative integer n, `shouldRetry n strategy` is
true exactly when n is strictly below the strategy's maximum retry count:
below 3 for "conservative", below 6 for "standard", below 10 for
"aggressive". -/
theorem claim_C4_shouldRetry_bounds : ∀ n : Nat,
    (shouldRetry n "conservative" = true ↔ n < 3)
    ∧ (shouldRetry n "standard" = true ↔ n < 6)
    ∧ (shouldRetry n "aggressive" = true ↔ n < 10) := by
  intro n
  refine ⟨?_, ?_, ?_⟩ <;> simp [shouldRetry, maxRetriesFor]

/-- Claim C5: `calculateRetryDelay a strategy` returns the strategy's delay
list indexed at `min a (length - 1)`; in particular for "standard" it is
`[1000, 2000, 4000, 8000, 16000, 32000].getD (min a 5) 0`, and for each
strategy the delay saturates at the last list entry for large attempt
indices. -/
theorem claim_C5_delay_table : ∀ a : Nat,
    (calculateRetryDelay a "standard"
        = [1000, 2000, 4000, 8000, 16000, 32000].getD (min a 5) 0)
    ∧ (calculateRetryDelay a "conservative"
        = [1000, 2000, 4000].getD (min a 2) 0)
    ∧ (calculateRetryDelay a "aggressive"
        = [1000, 1000, 2000, 2000, 4000, 8000, 16000, 32000, 60000,
            120000].getD (min a 9) 0)
    ∧ (5 ≤ a → calculateRetryDelay a "standard" = 32000)
    ∧ (2 ≤ a → calculateRetryDelay a "conservative" = 4000)
    ∧ (9 ≤ a → calculateRetryDelay a "aggressive" = 120000) := by
  intro a
  refine ⟨?_, ?_, ?_, ?_, ?_, ?_⟩
  · simp [calculateRetryDelay, delaysFor]
  · simp [calculateRetryDelay, delaysFor]
  · simp [calculateRetryDelay, delaysFor]
  · intro h
    have hm : min a 5 = 5 := by omega
    simp [calculateRetryDelay, delaysFor, hm]
  · intro h
    have hm : min a 2 = 2 := by omega
    simp [calculateRetryDelay, delaysFor, hm]
  · intro h
    have hm : min a 9 = 9 := by omega
    simp [calculateRetryDelay, delaysFor, hm]

/-- Witness for C5 at a concrete saturated input: attempt index 7 under
"standard" yields the last entry 32000. -/
theorem claim_C5_delay_table_witness :
    calculateRetryDelay 7 "standard" = 32000 :=
  (claim_C5_delay_table 7).2.2.2.1 (by decide)

/-- Counterexample to C10 as stated: "toString" is a strategy string other
than the three named ones, yet the functions do not behave as for
"standard" — the lookup finds the truthy inherited
`Object.prototype.toString`, the `||` fallback is skipped, the delay is
`undefined` and the retry check is false, where "standard" yields 1000 and
true. -/
theorem claim_C10_counterexample :
    calculateRetryDelayJs 0 "toString" = none
    ∧ calculateRetryDelayJs 0 "standard" = some 1000
    ∧ shouldRetryJs 0 "toString" = false
    ∧ shouldRetryJs 0 "standard" = true := by
  decide

/-- Claim C10 (amended): for every strategy string that is neither one of
"conservative", "standard", "aggressive" nor a property name inherited from
`Object.prototype` — and for the absent case, which the default parameter
maps to "standard" — both `calculateRetryDelay` and `shouldRetry` behave
exactly as for "standard"; for an `Object.prototype` property name
(toString, valueOf, hasOwnProperty, ...) the inherited member is truthy,
the `||` fallback is skipped, the delay is `undefined` and the retry check
is false for every n. -/
theorem claim_C10_unknown_strategy :
    (∀ (n : Nat) (s : String),
        s ≠ "conservative" → s ≠ "standard" → s ≠ "aggressive" →
        s ∉ objectPrototypeKeys →
        calculateRetryDelayJs n s = calculateRetryDelayJs n "standard"
        ∧ shouldRetryJs n s = shouldRetryJs n "standard")
    ∧ (∀ (n : Nat) (s : String), s ∈ objectPrototypeKeys →
        calculateRetryDelayJs n s = none ∧ shouldRetryJs n s = false) := by
  constructor
  · intro n s h1 h2 h3 h4
    have hstd : "standard" ∉ objectPrototypeKeys := by decide
    constructor
    · simp [calculateRetryDelayJs, h4, hstd, calculateRetryDelay, delaysFor,
        h1, h2, h3]
    · simp [shouldRetryJs, h4, hstd, shouldRetry, maxRetriesFor, h1, h2, h3]
  · intro n s h
    simp [calculateRetryDelayJs, shouldRetryJs, h]

/-- Witness for C10 at the concrete unknown non-prototype strategy name
"exponential" and the concrete prototype key "valueOf". -/
theorem claim_C10_unknown_strategy_witness :
    (calculateRetryDelayJs 4 "exponential" = calculateRetryDelayJs 4 "standard"
      ∧ shouldRetryJs 4 "exponential" = shouldRetryJs 4 "standard")
    ∧ (calculateRetryDelayJs 4 "valueOf" = none
      ∧ shouldRetryJs 4 "valueOf" = false) :=
  ⟨claim_C10_unknown_strategy.1 4 "exponential" (by decide) (by decide)
      (by decide) (by decide),
   claim_C10_unknown_strategy.2 4 "valueOf" (by decide)⟩

theorem length_enqueueStep_le_primary (maxSize : Nat) (q : List QueueItem)
    (op : EnqueueOp) (h : q.length ≤ maxSize) :
    (enqueueStep false maxSize q op).length ≤ maxSize := by
  unfold enqueueStep enqueue
  by_cases h1 : q.length ≥ maxSize
  · simp [h1, h]
  · by_cases h2 : checkDuplicate q op.req.content op.now
    · simp [h1, h2, h]
    · simp [h1, h2]
      omega

theorem length_enqueueStep_le_fallback (maxSize : Nat) (q : List QueueItem)
    (op : EnqueueOp) (h : q.length ≤ 50) :
    (enqueueStep true maxSize q op).length ≤ 50 := by
  unfold enqueueStep enqueue enqueueFallback
  by_cases h1 : q.length ≥ maxSize
  · simp [h1, h]
  · by_cases h2 : checkDuplicate q op.req.content op.now
    · simp [h1, h2, h]
    · by_cases h3 : q.length ≥ 50
      · simp [h1, h2, h3, h]
      · simp [h1, h2, h3]
        omega

theorem length_foldl_enqueueStep_le (useFallback : Bool) (maxSize bound : Nat)
    (hstep : ∀ q op, q.length ≤ bound →
        (enqueueStep useFallback maxSize q op).length ≤ bound) :
    ∀ (ops : List EnqueueOp) (q : List QueueItem), q.length ≤ bound →
      (ops.foldl (enqueueStep useFallback maxSize) q).length ≤ bound := by
  intro ops
  induction ops with
  | nil => intro q h; simpa using h
  | cons op ops ih =>
    intro q h
    simpa using ih _ (hstep q op h)

/-- Claim C6: over any sequence of enqueue calls from the empty store, the
queue never holds more than `maxSize` items on the primary store and never
more than 50 on the fallback store, whatever `maxSize` is configured to; an
enqueue arriving at a full store is rejected with the queue-full message
and leaves the store unchanged. -/
theorem claim_C6_capacity :
    (∀ (maxSize : Nat) (ops : List EnqueueOp),
        (runEnqueues false maxSize ops).length ≤ maxSize)
    ∧ (∀ (maxSize : Nat) (ops : List EnqueueOp),
        (runEnqueues true maxSize ops).length ≤ 50)
    ∧ (∀ (useFallback : Bool) (q : List QueueItem) (maxSize : Nat)
        (req : EnqueueRequest) (now newId : Nat), q.length ≥ maxSize →
        enqueue useFallback q maxSize req now newId
          = ({ success := false, id := none,
               message := some (queueFullMessage maxSize) }, q))
    ∧ (∀ (q : List QueueItem) (item : QueueItem) (fallbackId : Nat),
        q.length ≥ 50 →
        enqueueFallback q item fallbackId
          = ({ success := false, id := none,
               message := some "队列已满（降级模式限制50条）" }, q)) := by
  refine ⟨?_, ?_, ?_, ?_⟩
  · intro maxSize ops
    exact length_foldl_enqueueStep_le false maxSize maxSize
      (length_enqueueStep_le_primary maxSize) ops [] (by simp)
  · intro maxSize ops
    exact length_foldl_enqueueStep_le true maxSize 50
      (length_enqueueStep_le_fallback maxSize) ops [] (by simp)
  · intro useFallback q maxSize req now newId h
    simp [enqueue, h]
  · intro q item fallbackId h
    simp [enqueueFallback, h]

/-- Witness for C6: a store already at its bound rejects the next enqueue
unchanged, on both paths. -/
theorem claim_C6_capacity_witness :
    (enqueue false [sampleItem 1 "pending" 0] 1 dupReq 0 9
      = ({ success := false, id := none, message := some (queueFullMessage 1) },
          [sampleItem 1 "pending" 0]))
    ∧ (enqueueFallback (List.replicate 50 (sampleItem 1 "pending" 0))
          (sampleItem 2 "pending" 0) 7
        = ({ success := false, id := none,
             message := some "队列已满（降级模式限制50条）" },
            List.replicate 50 (sampleItem 1 "pending" 0))) :=
  ⟨claim_C6_capacity.2.2.1 false [sampleItem 1 "pending" 0] 1 dupReq 0 9
      (by simp),
   claim_C6_capacity.2.2.2 (List.replicate 50 (sampleItem 1 "pending" 0))
      (sampleItem 2 "pending" 0) 7 (by simp)⟩

theorem checkDuplicate_eq_true_iff (q : List QueueItem) (c : String) (now : Nat) :
    checkDuplicate q c now = true
      ↔ ∃ it ∈ q, it.content = c ∧ (now : Int) - (it.createdAt : Int) < 300000 := by
  simp [checkDuplicate]

/-- Claim C7: capacity permitting, enqueuing content identical to an item
whose `createdAt` lies less than 5 minutes (300000 ms) in the past is
rejected with the duplicate message and changes nothing, and once every
same-content item is at least 5 minutes old — in particular once more than
5 minutes have elapsed — the same enqueue succeeds and appends the fresh
record. -/
theorem claim_C7_dedup :
    ∀ (useFallback : Bool) (q : List QueueItem) (maxSize : Nat)
      (req : EnqueueRequest) (now newId : Nat),
      q.length < maxSize →
      ((∃ it ∈ q, it.content = req.content
            ∧ (now : Int) - (it.createdAt : Int) < 300000) →
          enqueue useFallback q maxSize req now newId
            = ({ success := false, id := none,
                 message := some "该笔记已在队列中" }, q))
      ∧ ((∀ it ∈ q, it.content = req.content →
              (300000 : Int) ≤ (now : Int) - (it.createdAt : Int)) →
          q.length < 50 →
          (enqueue useFallback q maxSize req now newId).1.success = true
          ∧ (enqueue useFallback q maxSize req now newId).2
              = q ++ [{ mkQueueItem req now with id := newId }]) := by
  intro useFallback q maxSize req now newId hcap
  have h1 : ¬ q.length ≥ maxSize := by omega
  constructor
  · intro hdup
    have hd : checkDuplicate q req.content now = true :=
      (checkDuplicate_eq_true_iff q req.content now).mpr hdup
    simp [enqueue, h1, hd]
  · intro hnodup hcap50
    have hd : checkDuplicate q req.content now = false := by
      rw [Bool.eq_false_iff]
      intro hdt
      obtain ⟨it, hit, hc, hlt⟩ := (checkDuplicate_eq_true_iff q req.content now).mp hdt
      exact absurd hlt (not_lt.mpr (hnodup it hit hc))
    have h3 : ¬ q.length ≥ 50 := by omega
    cases useFallback <;> simp [enqueue, enqueueFallback, h1, hd, h3]

/-- Witness for C7: with one same-content item created at time 0, the
enqueue at 60000 ms (1 minute) is rejected as a duplicate and the enqueue
at 300000 ms (exactly past the 5-minute window) succeeds. -/
theorem claim_C7_dedup_witness :
    (enqueue false [sampleItem 5 "pending" 0] 100 dupReq 60000 9
      = ({ success := false, id := none, message := some "该笔记已在队列中" },
          [sampleItem 5 "pending" 0]))
    ∧ (enqueue false [sampleItem 5 "pending" 0] 100 dupReq 300000 9).1.success
        = true :=
  ⟨(claim_C7_dedup false [sampleItem 5 "pending" 0] 100 dupReq 60000 9
      (by decide)).1 (by decide),
   ((claim_C7_dedup false [sampleItem 5 "pending" 0] 100 dupReq 300000 9
      (by decide)).2 (by decide) (by decide)).1⟩

/-- Counterexample to C8 as stated: `enqueue` performs no content
validation, so an empty-content item is accepted into an empty queue. -/
theorem claim_C8_counterexample :
    (enqueue false [] 100 emptyContentReq 0 1).1.success = true
    ∧ (enqueue false [] 100 emptyContentReq 0 1).2
        = [{ mkQueueItem emptyContentReq 0 with id := 1 }] := by
  decide

/-- Claim C8 (amended): the non-empty-content validation lives in the
caller `createNote`, not in `enqueue`: whenever the content trims to the
empty string, `createNote` rejects the request before the delivery attempt
(and, when the connection is configured, reports the empty-content error),
so the enqueue path is never reached and the item never enters the queue
through `createNote`. -/
theorem claim_C8_empty_content :
    ∀ (apiUrl token content : String) (outcome : DeliveryOutcome),
      content = "" →
      (createNoteGate apiUrl token content outcome).2 = false
      ∧ (apiUrl ≠ "" → token ≠ "" →
          (createNoteGate apiUrl token content outcome).1
            = CreateNoteOutcome.rejectedEmptyContent) := by
  intro apiUrl token content outcome h
  have hcond : content = "" ∨ content.trim = "" := Or.inl h
  constructor
  · by_cases ha : apiUrl = "" ∨ token = ""
    · simp [createNoteGate, ha]
    · simp [createNoteGate, ha, hcond]
  · intro ha hb
    have hab : ¬ (apiUrl = "" ∨ token = "") := by
      simp [ha, hb]
    simp [createNoteGate, hab, hcond]

/-- Witness for C8 at a concrete configured call with empty content. -/
theorem claim_C8_empty_content_witness :
    (createNoteGate "https://example" "tok" "" DeliveryOutcome.networkError).2
        = false
    ∧ (createNoteGate "https://example" "tok" "" DeliveryOutcome.networkError).1
        = CreateNoteOutcome.rejectedEmptyContent :=
  ⟨(claim_C8_empty_content "https://example" "tok" ""
      DeliveryOutcome.networkError rfl).1,
   (claim_C8_empty_content "https://example" "tok" ""
      DeliveryOutcome.networkError rfl).2 (by decide) (by decide)⟩

/-- Counterexample to C9 as stated: deleting a missing id returns `true`,
not `false` — the return value does not report whether a record existed,
on either store path. -/
theorem claim_C9_counterexample :
    (dequeue [] 5).1 = true ∧ (dequeueFallback [] 5).1 = true := by
  decide

/-- Claim C9 (amended): `dequeue` deletes exactly the records with the
given id, is idempotent, and returns `true` whenever the storage delete
succeeds — including when no record with that id existed; `false` would
signal only a storage-layer error, not a missing record.  The same holds
for the fallback path. -/
theorem claim_C9_dequeue :
    (∀ (q : List QueueItem) (id : Nat), (dequeue q id).1 = true)
    ∧ (∀ (q : List QueueItem) (id : Nat), (dequeueFallback q id).1 = true)
    ∧ (∀ (q : List QueueItem) (id : Nat) (item : QueueItem),
        item ∈ (dequeue q id).2 ↔ item ∈ q ∧ item.id ≠ id)
    ∧ (∀ (q : List QueueItem) (id : Nat),
        dequeue (dequeue q id).2 id = dequeue q id)
    ∧ (∀ (q : List QueueItem) (id : Nat),
        dequeueFallback (dequeueFallback q id).2 id = dequeueFallback q id) := by
  refine ⟨fun q id => rfl, fun q id => rfl, ?_, ?_, ?_⟩
  · intro q id item
    simp [dequeue]
  · intro q id
    simp [dequeue, List.filter_filter]
  · intro q id
    simp [dequeueFallback, List.filter_filter]

/-- Evaluation of the C1 bug at its failing input: the failure branch
reschedules `retryQueueItem` with the stale snapshot it was called with
(retryCount still 0 after the first failure), so after the second failed
attempt of the `setTimeout` chain the persisted retryCount is still 1, not
2 — it is not incremented once per failed delivery attempt. -/
theorem claim_C1_stale_retryCount :
    ((retryQueueItem [sampleItem 1 "pending" 0] (sampleItem 1 "pending" 0)
        "standard" failDelivery 100).2
      = some (2000, sampleItem 1 "pending" 0))
    ∧ (((retryQueueItem
          (retryQueueItem [sampleItem 1 "pending" 0] (sampleItem 1 "pending" 0)
            "standard" failDelivery 100).1
          (sampleItem 1 "pending" 0) "standard" failDelivery 200).1).map
            (fun item => (item.status, item.retryCount)) = [("pending", 1)]) := by
  decide

/-- Counterexample to C2 as stated: `retryQueueItem` never inspects
`item.status`, so invoked on an item already in the terminal state
"success" it rewrites it to "retrying" then "pending" with retryCount 1,
schedules a further attempt, and its behaviour depends on the delivery
outcome (the delivery function is invoked). -/
theorem claim_C2_counterexample :
    (((retryQueueItem [sampleItem 2 "success" 0] (sampleItem 2 "success" 0)
        "standard" failDelivery 7).1).map
          (fun item => (item.status, item.retryCount)) = [("pending", 1)])
    ∧ (retryQueueItem [sampleItem 2 "success" 0] (sampleItem 2 "success" 0)
        "standard" failDelivery 7).2 ≠ none
    ∧ retryQueueItem [sampleItem 2 "success" 0] (sampleItem 2 "success" 0)
          "standard" failDelivery 7
        ≠ retryQueueItem [sampleItem 2 "success" 0] (sampleItem 2 "success" 0)
          "standard" { success := true, message := "" } 7 := by
  decide

/-- Claim C2 (amended): the orchestrator itself performs no terminal-state
check; terminal items are shielded from it only because the lifecycle
drivers (`processQueueOnStartup`, the periodic recheck and the
network-available trigger all share its filter) hand it exclusively items
with status "pending" or "retrying", and because both transitions into a
terminal state — success and max-retries-failed — schedule no further
invocation, so the self-rescheduling chain never targets an item it made
terminal. -/
theorem claim_C2_terminal_protection :
    (∀ (queue : List QueueItem), ∀ item ∈ recoveryItems queue,
        item.status ≠ "success" ∧ item.status ≠ "failed")
    ∧ (∀ (queue : List QueueItem) (item : QueueItem) (strategy : String)
        (result : DeliveryResult) (now : Nat),
        result.success = true → shouldRetry item.retryCount strategy = true →
        (retryQueueItem queue item strategy result now).2 = none)
    ∧ (∀ (queue : List QueueItem) (item : QueueItem) (strategy : String)
        (result : DeliveryResult) (now : Nat),
        shouldRetry item.retryCount strategy = false →
        (retryQueueItem queue item strategy result now).2 = none) := by
  refine ⟨?_, ?_, ?_⟩
  · intro queue item h
    obtain ⟨-, h2⟩ := List.mem_filter.mp h
    simp only [Bool.or_eq_true, decide_eq_true_eq] at h2
    constructor <;> intro hc <;> rw [hc] at h2 <;>
      rcases h2 with h2 | h2 <;> exact absurd h2 (by decide)
  · intro queue item strategy result now h1 h2
    simp [retryQueueItem, h1, h2]
  · intro queue item strategy result now h
    simp [retryQueueItem, h]

/-- Witness for C2 (amended) at concrete inputs: the driver filter keeps a
pending item and strips nothing terminal from it, and a successful delivery
at retryCount 0 schedules no further invocation. -/
theorem claim_C2_terminal_protection_witness :
    ((sampleItem 1 "pending" 0).status ≠ "success"
      ∧ (sampleItem 1 "pending" 0).status ≠ "failed")
    ∧ (retryQueueItem [sampleItem 1 "pending" 0] (sampleItem 1 "pending" 0)
        "standard" { success := true, message := "" } 3).2 = none :=
  ⟨claim_C2_terminal_protection.1 [sampleItem 1 "pending" 0]
      (sampleItem 1 "pending" 0) (by decide),
   claim_C2_terminal_protection.2.1 [sampleItem 1 "pending" 0]
      (sampleItem 1 "pending" 0) "standard" { success := true, message := "" }
      3 rfl (by decide)⟩

/-- Counterexample to C3 as stated: once retries are exhausted the stored
`lastError` is the Chinese string 达到最大重试次数, not the literal
"max retries reached". -/
theorem claim_C3_counterexample :
    (((retryQueueItem [sampleItem 3 "pending" 3] (sampleItem 3 "pending" 3)
        "conservative" failDelivery 9).1).map (fun item => item.lastError)
      = ["达到最大重试次数"])
    ∧ "达到最大重试次数" ≠ "max retries reached" := by
  decide

/-- Claim C3 (amended): when `shouldRetry item.retryCount strategy` is
false, `retryQueueItem` is independent of the delivery outcome (the
delivery function is not consulted), schedules nothing, and its only write
marks the item "failed" with lastError 达到最大重试次数 ("max retries
reached"); and under the conservative strategy, when each invocation reads
the stored item fresh (as the recovery passes do) and all 3 attempts fail,
the final state is "failed" with retryCount 3 and that lastError. -/
theorem claim_C3_max_retries :
    (∀ (queue : List QueueItem) (item : QueueItem) (strategy : String)
        (now : Nat) (r1 r2 : DeliveryResult),
        shouldRetry item.retryCount strategy = false →
        retryQueueItem queue item strategy r1 now
          = retryQueueItem queue item strategy r2 now)
    ∧ (∀ (queue : List QueueItem) (item : QueueItem) (strategy : String)
        (now : Nat) (r : DeliveryResult),
        shouldRetry item.retryCount strategy = false →
        (retryQueueItem queue item strategy r now).2 = none
        ∧ (retryQueueItem queue item strategy r now).1
          = (updateItem queue item.id
              { status := some "failed", retryCount := none,
                lastError := some "达到最大重试次数" } now).2)
    ∧ ((recoveryPassSingle "conservative" failDelivery 40
          (recoveryPassSingle "conservative" failDelivery 30
            (recoveryPassSingle "conservative" failDelivery 20
              (recoveryPassSingle "conservative" failDelivery 10
                [sampleItem 1 "pending" 0])))).map
            (fun item => (item.status, item.retryCount, item.lastError))
          = [("failed", 3, "达到最大重试次数")]) := by
  refine ⟨?_, ?_, ?_⟩
  · intro queue item strategy now r1 r2 h
    simp [retryQueueItem, h]
  · intro queue item strategy now r h
    simp [retryQueueItem, h]
  · decide

/-- Witness for C3 at a concrete exhausted item: retryCount 6 under
"standard" schedules nothing. -/
theorem claim_C3_max_retries_witness :
    (retryQueueItem [sampleItem 4 "pending" 6] (sampleItem 4 "pending" 6)
        "standard" failDelivery 11).2 = none :=
  (claim_C3_max_retries.2.1 [sampleItem 4 "pending" 6] (sampleItem 4 "pending" 6)
      "standard" 11 failDelivery (by decide)).1

end BlinkoQueue
